import Mathlib

/-!
Verification of the sandboxed-shell tool (`llm_tools_sandboxed_shell.py`).

The ambient process environment is modelled as an association list of
(name, value) pairs in insertion order, mirroring Python's `os.environ`
mapping.  `subprocess.run` and its possible exceptions are modelled by the
`LaunchResult` type; the launch itself is an oracle parameter, so that every
possible outcome of the child-process launch is quantified over.
-/

namespace SandboxedShell

/-- The ambient process environment: names to values, in insertion order. -/
abbrev Env := List (String × String)

/-- `os.environ.get(k, d)`: the value bound to `k`, or the default `d`. -/
def envGet (env : Env) (k d : String) : String :=
  match List.lookup k env with
  | some v => v
  | none => d

/-- The fixed allow-list `safe_env_vars` from the source. -/
def safe_env_vars : List String := ["LANG", "COLORTERM", "EDITOR", "VISUAL", "PAGER"]

/-- The `bwrap_args` list built by `sandboxed_shell`, line for line from the
source: the fixed isolation flags, the three essential `--setenv` entries,
one `--setenv` per present allow-listed variable, one `--setenv` per
`LC_`-prefixed ambient variable, then chdir/session flags and the
`-- /bin/sh -c command` terminator. -/
def bwrapArgs (env : Env) (uid : Nat) (command : String) : List String :=
  (["bwrap",
    "--die-with-parent",
    "--ro-bind", "/", "/",
    "--dev", "/dev",
    "--proc", "/proc",
    "--tmpfs", "/tmp",
    "--tmpfs", "/var",
    "--tmpfs", "/run",
    "--dir", "/run/user/" ++ toString uid,
    "--unshare-pid",
    "--unshare-cgroup",
    "--unshare-ipc",
    "--unshare-net",
    "--cap-drop", "ALL",
    "--clearenv",
    "--setenv", "PATH", envGet env "PATH" "/usr/bin:/bin:/usr/sbin:/sbin",
    "--setenv", "HOME", envGet env "HOME" "/tmp",
    "--setenv", "USER", envGet env "USER" "sandbox"]
   ++ safe_env_vars.flatMap (fun v =>
        match List.lookup v env with
        | some x => ["--setenv", v, x]
        | none => [])
   ++ env.flatMap (fun p =>
        if p.1.startsWith "LC_" then ["--setenv", p.1, p.2] else []))
  ++ ["--chdir", envGet env "PWD" "/tmp",
      "--new-session",
      "--",
      "/bin/sh",
      "-c",
      command]

/-- The wall-clock timeout passed to `subprocess.run` (`timeout=60`). -/
def timeoutSeconds : Nat := 60

/-- The possible outcomes of the `subprocess.run` call in the source:
a completed process (any exit code, since `check=False`), a
`subprocess.TimeoutExpired` exception (which carries whatever partial
output was captured), a `FileNotFoundError`, or any other exception
carrying a message. -/
inductive LaunchResult where
  | ok (returncode : Int) (stdout stderr : String)
  | timeoutExpired (partialStdout partialStderr : String)
  | fileNotFound
  | otherError (msg : String)
deriving DecidableEq, Repr

/-- The local variable `output` of the source just before the final
`return`: stdout, then the labeled stderr section when stderr is non-empty,
then the labeled exit-code line when the exit code is non-zero. -/
def outputText (returncode : Int) (stdout stderr : String) : String :=
  let output := stdout
  let output := if stderr ≠ "" then output ++ "\n[stderr]:\n" ++ stderr else output
  if returncode ≠ 0 then output ++ "\n[Exit code: " ++ toString returncode ++ "]" else output

/-- `return output if output else "[No output]"` on a completed process. -/
def formatCompleted (returncode : Int) (stdout stderr : String) : String :=
  let output := outputText returncode stdout stderr
  if output ≠ "" then output else "[No output]"

/-- The full `sandboxed_shell` function.  The launch of the isolation
front-end is an oracle `run` taking the argument vector and the timeout;
the `try/except` of the source maps each of its outcomes to a string. -/
def sandboxed_shell (env : Env) (uid : Nat)
    (run : List String → Nat → LaunchResult) (command : String) : String :=
  match run (bwrapArgs env uid command) timeoutSeconds with
  | .ok code out err => formatCompleted code out err
  | .timeoutExpired _ _ => "[Error: Command timed out after 60 seconds]"
  | .fileNotFound =>
      "[Error: bubblewrap (bwrap) not found. Please install bubblewrap: apt-get install bubblewrap]"
  | .otherError m => "[Error executing command: " ++ m ++ "]"

/-- The environment handed to the child process: the (name, value) pairs
passed through `--setenv`, read off the construction of `bwrap_args`:
the three essentials, the present allow-listed variables, and the
`LC_`-prefixed ambient variables, in that order. -/
def childEnv (env : Env) : List (String × String) :=
  [("PATH", envGet env "PATH" "/usr/bin:/bin:/usr/sbin:/sbin"),
   ("HOME", envGet env "HOME" "/tmp"),
   ("USER", envGet env "USER" "sandbox")]
  ++ safe_env_vars.flatMap (fun v =>
       match List.lookup v env with
       | some x => [(v, x)]
       | none => [])
  ++ env.filter (fun p => p.1.startsWith "LC_")

/-- One `--setenv K V` fragment of the argument vector. -/
def setenvTriple (p : String × String) : List String := ["--setenv", p.1, p.2]

/-- The fixed isolation flags preceding `--clearenv`. -/
def bwrapBase (uid : Nat) : List String :=
  ["bwrap",
   "--die-with-parent",
   "--ro-bind", "/", "/",
   "--dev", "/dev",
   "--proc", "/proc",
   "--tmpfs", "/tmp",
   "--tmpfs", "/var",
   "--tmpfs", "/run",
   "--dir", "/run/user/" ++ toString uid,
   "--unshare-pid",
   "--unshare-cgroup",
   "--unshare-ipc",
   "--unshare-net",
   "--cap-drop", "ALL"]

/-- The chdir/session flags and the `-- /bin/sh -c command` terminator. -/
def bwrapTail (env : Env) (command : String) : List String :=
  ["--chdir", envGet env "PWD" "/tmp",
   "--new-session",
   "--",
   "/bin/sh",
   "-c",
   command]

/-- Everything in the argument vector before the `-- /bin/sh -c <command>`
terminator; a function of the ambient environment and uid only. -/
def bwrapFront (env : Env) (uid : Nat) : List String :=
  bwrapBase uid ++ ["--clearenv"] ++ (childEnv env).flatMap setenvTriple
  ++ ["--chdir", envGet env "PWD" "/tmp", "--new-session"]

lemma flatMap_setenvTriple_optPairs (names : List String) (env : Env) :
    (names.flatMap (fun v =>
        match List.lookup v env with
        | some x => [(v, x)]
        | none => [])).flatMap setenvTriple
      = names.flatMap (fun v =>
        match List.lookup v env with
        | some x => ["--setenv", v, x]
        | none => []) := by
  induction names with
  | nil => rfl
  | cons v t ih =>
    rw [List.flatMap_cons, List.flatMap_cons, List.flatMap_append, ih]
    cases List.lookup v env <;> rfl

lemma flatMap_setenvTriple_filter (env : Env) :
    (env.filter (fun p => p.1.startsWith "LC_")).flatMap setenvTriple
      = env.flatMap (fun p =>
          if p.1.startsWith "LC_" then ["--setenv", p.1, p.2] else []) := by
  induction env with
  | nil => rfl
  | cons p t ih =>
    rw [List.filter_cons, List.flatMap_cons]
    cases h : p.1.startsWith "LC_"
    · simpa [h] using ih
    · simp only [h, if_true, List.flatMap_cons, ih, setenvTriple]

/-- The argument vector splits as: fixed flags, `--clearenv`, the
`--setenv` rendering of `childEnv`, then the tail. -/
lemma bwrapArgs_split (env : Env) (uid : Nat) (command : String) :
    bwrapArgs env uid command
      = bwrapBase uid ++ ["--clearenv"] ++ (childEnv env).flatMap setenvTriple
        ++ bwrapTail env command := by
  unfold bwrapArgs bwrapBase bwrapTail childEnv
  rw [List.flatMap_append, List.flatMap_append,
      flatMap_setenvTriple_optPairs, flatMap_setenvTriple_filter]
  simp [setenvTriple, List.append_assoc]

lemma mem_optPairs (names : List String) (env : Env) (k v : String) :
    ((k, v) ∈ names.flatMap (fun n =>
        match List.lookup n env with
        | some x => [(n, x)]
        | none => []))
      ↔ k ∈ names ∧ List.lookup k env = some v := by
  induction names with
  | nil => simp
  | cons n t ih =>
    rw [List.flatMap_cons, List.mem_append, ih, List.mem_cons]
    cases h : List.lookup n env with
    | none =>
      simp only [List.not_mem_nil, false_or]
      constructor
      · rintro ⟨hk, hl⟩
        exact ⟨Or.inr hk, hl⟩
      · rintro ⟨hk | hk, hl⟩
        · subst hk
          rw [h] at hl
          exact Option.noConfusion hl
        · exact ⟨hk, hl⟩
    | some x =>
      simp only [List.mem_singleton, Prod.mk.injEq]
      constructor
      · rintro (⟨rfl, rfl⟩ | ⟨hk, hl⟩)
        · exact ⟨Or.inl rfl, h⟩
        · exact ⟨Or.inr hk, hl⟩
      · rintro ⟨hk | hk, hl⟩
        · subst hk
          rw [h] at hl
          exact Or.inl ⟨rfl, (Option.some.inj hl).symm⟩
        · exact Or.inr ⟨hk, hl⟩

set_option maxHeartbeats 1000000 in
/-- Claim C2: the child environment is assembled after `--clearenv` (so from
an empty environment) and contains exactly: PATH, HOME, USER with the
ambient value or the fixed fallback; each of the five allow-listed
display/locale variables iff present in the ambient environment; and every
ambient variable whose name starts with `LC_`.  Nothing else is forwarded. -/
theorem child_environment_exactly_allowlisted
    (env : Env) (uid : Nat) (command : String) (k v : String) :
    (bwrapArgs env uid command
      = bwrapBase uid ++ ["--clearenv"] ++ (childEnv env).flatMap setenvTriple
        ++ bwrapTail env command)
    ∧ ((k, v) ∈ childEnv env ↔
        (k = "PATH" ∧ v = envGet env "PATH" "/usr/bin:/bin:/usr/sbin:/sbin")
        ∨ (k = "HOME" ∧ v = envGet env "HOME" "/tmp")
        ∨ (k = "USER" ∧ v = envGet env "USER" "sandbox")
        ∨ (k ∈ safe_env_vars ∧ List.lookup k env = some v)
        ∨ (k.startsWith "LC_" = true ∧ (k, v) ∈ env)) := by
  refine ⟨bwrapArgs_split env uid command, ?_⟩
  unfold childEnv
  rw [List.mem_append, List.mem_append, mem_optPairs, List.mem_filter]
  simp only [List.mem_cons, List.not_mem_nil, or_false, Prod.mk.injEq]
  tauto

/-- Claim C4: the argument vector follows exactly the fixed grammar and
ordering: global flag, mounts, ephemeral directories, namespace unshares,
capability drop, environment clear and setenv pairs, chdir, session flag,
and the `-- /bin/sh -c <command>` terminator. -/
theorem argument_vector_grammar (env : Env) (uid : Nat) (command : String) :
    bwrapArgs env uid command
      = ["bwrap",
         "--die-with-parent",
         "--ro-bind", "/", "/",
         "--dev", "/dev",
         "--proc", "/proc",
         "--tmpfs", "/tmp",
         "--tmpfs", "/var",
         "--tmpfs", "/run",
         "--dir", "/run/user/" ++ toString uid,
         "--unshare-pid",
         "--unshare-cgroup",
         "--unshare-ipc",
         "--unshare-net",
         "--cap-drop", "ALL",
         "--clearenv"]
        ++ (childEnv env).flatMap setenvTriple
        ++ ["--chdir", envGet env "PWD" "/tmp",
            "--new-session",
            "--", "/bin/sh", "-c", command] := by
  rw [bwrapArgs_split]
  simp [bwrapBase, bwrapTail, List.append_assoc]

/-- Claim C7: the `--chdir` argument is the ambient `PWD` value when that
variable is present, and the safe default `/tmp` inside the writable
scratch otherwise. -/
theorem chdir_from_ambient_pwd (env : Env) (uid : Nat) (command : String) :
    ∃ l₁ l₂,
      bwrapArgs env uid command = l₁ ++ ["--chdir", envGet env "PWD" "/tmp"] ++ l₂
      ∧ (∀ p, List.lookup "PWD" env = some p → envGet env "PWD" "/tmp" = p)
      ∧ (List.lookup "PWD" env = none → envGet env "PWD" "/tmp" = "/tmp") := by
  refine ⟨bwrapBase uid ++ ["--clearenv"] ++ (childEnv env).flatMap setenvTriple,
          ["--new-session", "--", "/bin/sh", "-c", command], ?_, ?_, ?_⟩
  · rw [bwrapArgs_split]
    simp [bwrapTail, List.append_assoc]
  · intro p hp
    unfold envGet
    rw [hp]
  · intro hp
    unfold envGet
    rw [hp]

/-- Claim C7 witness: with ambient `PWD` equal to `/work`, the `--chdir`
argument is `/work`. -/
theorem chdir_from_ambient_pwd_witness :
    ∃ l₁ l₂,
      bwrapArgs [("PWD", "/work")] 0 "ls" = l₁ ++ ["--chdir", "/work"] ++ l₂ := by
  obtain ⟨l₁, l₂, h, -, -⟩ := chdir_from_ambient_pwd [("PWD", "/work")] 0 "ls"
  exact ⟨l₁, l₂, h⟩

/-- Claim C8: the command text is the single final element of the argument
vector, immediately preceded by `--`, `/bin/sh`, `-c`; everything before
the terminator is a function of the ambient environment and uid only, so
no part of the command text influences or appears in it. -/
theorem command_verbatim_last (env : Env) (uid : Nat) (command : String) :
    bwrapArgs env uid command = bwrapFront env uid ++ ["--", "/bin/sh", "-c", command]
    ∧ (bwrapArgs env uid command).getLast? = some command := by
  have h : bwrapArgs env uid command
      = bwrapFront env uid ++ ["--", "/bin/sh", "-c", command] := by
    rw [bwrapArgs_split]
    simp [bwrapFront, bwrapTail, List.append_assoc]
  refine ⟨h, ?_⟩
  rw [h, show bwrapFront env uid ++ ["--", "/bin/sh", "-c", command]
      = (bwrapFront env uid ++ ["--", "/bin/sh", "-c"]) ++ [command] by
        simp [List.append_assoc]]
  exact List.getLast?_concat _

/-- Claim C9: the constructed argument vector is a pure function of the
ambient environment (as an ordered mapping), the effective uid, and the
command string: two invocations agreeing on these inputs agree on it. -/
theorem policy_deterministic (env₁ env₂ : Env) (uid₁ uid₂ : Nat)
    (cmd₁ cmd₂ : String)
    (henv : env₁ = env₂) (huid : uid₁ = uid₂) (hcmd : cmd₁ = cmd₂) :
    bwrapArgs env₁ uid₁ cmd₁ = bwrapArgs env₂ uid₂ cmd₂ := by
  subst henv
  subst huid
  subst hcmd
  rfl

/-- Claim C9 witness: two runs on the same concrete inputs build the same
argument vector. -/
theorem policy_deterministic_witness :
    bwrapArgs [("PATH", "/bin"), ("LC_ALL", "C")] 1000 "ls -la"
      = bwrapArgs [("PATH", "/bin"), ("LC_ALL", "C")] 1000 "ls -la" :=
  policy_deterministic _ _ _ _ _ _ rfl rfl rfl

/-- Claim C1: `sandboxed_shell` is a total function into strings: for every
command and every outcome of the child-process launch (normal exit with any
code, deadline expiry, missing front-end binary, other launch exception),
it returns a string obtained by the corresponding descriptive conversion;
no outcome escapes the four handled cases. -/
theorem always_returns_descriptive_string (env : Env) (uid : Nat)
    (run : List String → Nat → LaunchResult) (command : String) :
    (∃ code out err,
        run (bwrapArgs env uid command) timeoutSeconds = .ok code out err
        ∧ sandboxed_shell env uid run command = formatCompleted code out err)
    ∨ (∃ pout perr,
        run (bwrapArgs env uid command) timeoutSeconds = .timeoutExpired pout perr
        ∧ sandboxed_shell env uid run command
          = "[Error: Command timed out after 60 seconds]")
    ∨ (run (bwrapArgs env uid command) timeoutSeconds = .fileNotFound
        ∧ sandboxed_shell env uid run command
          = "[Error: bubblewrap (bwrap) not found. Please install bubblewrap: apt-get install bubblewrap]")
    ∨ (∃ m,
        run (bwrapArgs env uid command) timeoutSeconds = .otherError m
        ∧ sandboxed_shell env uid run command
          = "[Error executing command: " ++ m ++ "]") := by
  cases h : run (bwrapArgs env uid command) timeoutSeconds with
  | ok code out err =>
      exact Or.inl ⟨code, out, err, rfl, by simp [sandboxed_shell, h]⟩
  | timeoutExpired pout perr =>
      exact Or.inr (Or.inl ⟨pout, perr, rfl, by simp [sandboxed_shell, h]⟩)
  | fileNotFound =>
      exact Or.inr (Or.inr (Or.inl ⟨rfl, by simp [sandboxed_shell, h]⟩))
  | otherError m =>
      exact Or.inr (Or.inr (Or.inr ⟨m, rfl, by simp [sandboxed_shell, h]⟩))

/-- Claim C5: when the launch at the configured deadline reports expiry, the
call returns the fixed timeout sentinel naming that 60-second duration,
independently of whatever partial output was captured. -/
theorem timeout_sentinel (env : Env) (uid : Nat) (command : String)
    (run : List String → Nat → LaunchResult) (pout perr : String)
    (h : run (bwrapArgs env uid command) timeoutSeconds
          = .timeoutExpired pout perr) :
    sandboxed_shell env uid run command
      = "[Error: Command timed out after " ++ toString timeoutSeconds
        ++ " seconds]"
    ∧ timeoutSeconds = 60 := by
  constructor
  · simp only [sandboxed_shell, h]
    decide
  · rfl

/-- Claim C5 witness: a launch expiring with captured partial output yields
the timeout sentinel, not that output. -/
theorem timeout_sentinel_witness :
    sandboxed_shell [] 0 (fun _ _ => .timeoutExpired "half a line" "") "sleep 120"
      = "[Error: Command timed out after " ++ toString timeoutSeconds
        ++ " seconds]"
    ∧ timeoutSeconds = 60 :=
  timeout_sentinel [] 0 "sleep 120"
    (fun _ _ => .timeoutExpired "half a line" "") "half a line" "" rfl

lemma toolMissing_ne_launchFailed (m : String) :
    ("[Error: bubblewrap (bwrap) not found. Please install bubblewrap: apt-get install bubblewrap]" : String)
      ≠ "[Error executing command: " ++ m ++ "]" := by
  intro h
  have hd := congrArg String.data h
  rw [String.data_append, String.data_append, List.append_assoc] at hd
  have h26 := congrArg (List.take 26) hd
  have hleft :
      List.take 26 (("[Error executing command: " : String).data
          ++ (m.data ++ ("]" : String).data))
        = ("[Error executing command: " : String).data := by
    have hlen : ("[Error executing command: " : String).data.length = 26 := rfl
    rw [← hlen, List.take_left]
  rw [hleft] at h26
  exact absurd h26 (by decide)

/-- Claim C6: a missing front-end binary yields the fixed install
instruction, any other launch failure yields the template embedding its
diagnostic message, and the two strings are distinguishable for every
diagnostic message. -/
theorem missing_tool_vs_launch_failure (env : Env) (uid : Nat)
    (command : String) (run runOther : List String → Nat → LaunchResult)
    (m : String)
    (hmiss : run (bwrapArgs env uid command) timeoutSeconds = .fileNotFound)
    (hoth : runOther (bwrapArgs env uid command) timeoutSeconds
              = .otherError m) :
    sandboxed_shell env uid run command
      = "[Error: bubblewrap (bwrap) not found. Please install bubblewrap: apt-get install bubblewrap]"
    ∧ sandboxed_shell env uid runOther command
      = "[Error executing command: " ++ m ++ "]"
    ∧ sandboxed_shell env uid run command
      ≠ sandboxed_shell env uid runOther command := by
  have h1 : sandboxed_shell env uid run command
      = "[Error: bubblewrap (bwrap) not found. Please install bubblewrap: apt-get install bubblewrap]" := by
    simp [sandboxed_shell, hmiss]
  have h2 : sandboxed_shell env uid runOther command
      = "[Error executing command: " ++ m ++ "]" := by
    simp [sandboxed_shell, hoth]
  refine ⟨h1, h2, ?_⟩
  rw [h1, h2]
  exact toolMissing_ne_launchFailed m

/-- Claim C6 witness: concrete launches, one missing the binary and one
failing with a permission message, produce the two distinct sentinels. -/
theorem missing_tool_vs_launch_failure_witness :
    sandboxed_shell [] 0 (fun _ _ => .fileNotFound) "true"
      = "[Error: bubblewrap (bwrap) not found. Please install bubblewrap: apt-get install bubblewrap]"
    ∧ sandboxed_shell [] 0 (fun _ _ => .otherError "Permission denied") "true"
      = "[Error executing command: " ++ "Permission denied" ++ "]"
    ∧ sandboxed_shell [] 0 (fun _ _ => .fileNotFound) "true"
      ≠ sandboxed_shell [] 0 (fun _ _ => .otherError "Permission denied") "true" :=
  missing_tool_vs_launch_failure [] 0 "true" (fun _ _ => .fileNotFound)
    (fun _ _ => .otherError "Permission denied") "Permission denied" rfl rfl

lemma ite_ne_empty_flip (s t : String) :
    (if s ≠ "" then s else t) = if s = "" then t else s := by
  by_cases h : s = "" <;> simp [h]

lemma eq_empty_of_data_eq_nil (s : String) (h : s.data = []) : s = "" := by
  cases s
  subst h
  rfl

lemma lit_split_exit (r : String) :
    ("\n[Exit code: " : String) ++ r = "\n[" ++ ("Exit code: " ++ r) := by
  rw [← String.append_assoc]
  rfl

lemma lit_split_stderr (r : String) :
    ("\n[stderr]:\n" : String) ++ r = "\n" ++ ("[stderr]:\n" ++ r) := by
  rw [← String.append_assoc]
  rfl

/-- The accumulated output equals the spec-shaped concatenation: stdout,
then a stderr section exactly when stderr is non-empty, then an exit-code
line exactly when the exit code is non-zero. -/
lemma outputText_spec (code : Int) (out err : String) :
    outputText code out err
      = out ++ (if err = "" then "" else "\n[stderr]:\n" ++ err)
        ++ (if code = 0 then "" else "\n[Exit code: " ++ toString code ++ "]") := by
  by_cases he : err = "" <;> by_cases hc : code = 0 <;>
    simp [outputText, he, hc, String.append_assoc, String.append_empty]

/-- Claim C3: the string returned for a completed process is stdout,
followed by the labeled stderr section iff stderr is non-empty, followed by
the labeled exit-code line iff the exit code is non-zero, with the
`[No output]` sentinel substituted when that combined text is empty; in
particular a non-zero exit code N puts `Exit code: N` in the output and a
non-empty stderr appears under the stderr label. -/
theorem completed_output_format (code : Int) (out err : String) :
    (formatCompleted code out err
      = if (out ++ (if err = "" then "" else "\n[stderr]:\n" ++ err)
            ++ (if code = 0 then "" else "\n[Exit code: " ++ toString code ++ "]")) = ""
        then "[No output]"
        else out ++ (if err = "" then "" else "\n[stderr]:\n" ++ err)
             ++ (if code = 0 then "" else "\n[Exit code: " ++ toString code ++ "]"))
    ∧ (code ≠ 0 → ∃ a b,
        formatCompleted code out err = a ++ ("Exit code: " ++ toString code) ++ b)
    ∧ (err ≠ "" → ∃ a b,
        formatCompleted code out err = a ++ ("[stderr]:\n" ++ err) ++ b) := by
  refine ⟨?_, ?_, ?_⟩
  · have h1 : formatCompleted code out err
        = if outputText code out err = "" then "[No output]"
          else outputText code out err := by
      simp only [formatCompleted]
      exact ite_ne_empty_flip _ _
    rw [h1, outputText_spec]
  · intro hc
    have hform : outputText code out err
        = (if err ≠ "" then out ++ "\n[stderr]:\n" ++ err else out)
          ++ "\n[Exit code: " ++ toString code ++ "]" := by
      simp only [outputText]
      rw [if_pos hc]
    have hne : outputText code out err ≠ "" := by
      rw [hform]
      intro h0
      have hl := congrArg String.length h0
      rw [String.length_append, String.length_append, String.length_append] at hl
      rw [show ("\n[Exit code: " : String).length = 13 from rfl,
          show ("]" : String).length = 1 from rfl,
          show ("" : String).length = 0 from rfl] at hl
      omega
    have hfc : formatCompleted code out err = outputText code out err := by
      simp [formatCompleted, hne]
    refine ⟨(if err ≠ "" then out ++ "\n[stderr]:\n" ++ err else out) ++ "\n[",
            "]", ?_⟩
    rw [hfc, hform]
    simp only [String.append_assoc, lit_split_exit]
  · intro he
    by_cases hc : code = 0
    · have hform : outputText code out err = out ++ "\n[stderr]:\n" ++ err := by
        simp only [outputText]
        rw [if_pos he, if_neg (by simp [hc])]
      have hne : outputText code out err ≠ "" := by
        rw [hform]
        intro h0
        have hl := congrArg String.length h0
        rw [String.length_append, String.length_append] at hl
        rw [show ("\n[stderr]:\n" : String).length = 11 from rfl,
            show ("" : String).length = 0 from rfl] at hl
        omega
      have hfc : formatCompleted code out err = outputText code out err := by
        simp [formatCompleted, hne]
      refine ⟨out ++ "\n", "", ?_⟩
      rw [hfc, hform, String.append_empty]
      simp only [String.append_assoc, lit_split_stderr]
    · have hform : outputText code out err
          = out ++ "\n[stderr]:\n" ++ err
            ++ "\n[Exit code: " ++ toString code ++ "]" := by
        simp only [outputText]
        rw [if_pos he, if_pos hc]
      have hne : outputText code out err ≠ "" := by
        rw [hform]
        intro h0
        have hl := congrArg String.length h0
        rw [String.length_append, String.length_append, String.length_append,
            String.length_append, String.length_append] at hl
        rw [show ("\n[stderr]:\n" : String).length = 11 from rfl,
            show ("\n[Exit code: " : String).length = 13 from rfl,
            show ("]" : String).length = 1 from rfl,
            show ("" : String).length = 0 from rfl] at hl
        omega
      have hfc : formatCompleted code out err = outputText code out err := by
        simp [formatCompleted, hne]
      refine ⟨out ++ "\n", "\n[Exit code: " ++ toString code ++ "]", ?_⟩
      rw [hfc, hform]
      simp only [String.append_assoc, lit_split_stderr]

/-- Claim C3 witness: for exit code 42 with stderr text `oops`, the
formatted output carries the exit-code annotation and the labeled stderr
text. -/
theorem completed_output_format_witness :
    (42 : Int) ≠ 0 ∧ ("oops" : String) ≠ ""
    ∧ (∃ a b, formatCompleted 42 "hello" "oops"
        = a ++ ("Exit code: " ++ toString (42 : Int)) ++ b)
    ∧ (∃ a b, formatCompleted 42 "hello" "oops"
        = a ++ ("[stderr]:\n" ++ "oops") ++ b) := by
  have h := completed_output_format 42 "hello" "oops"
  exact ⟨by decide, by decide, h.2.1 (by decide), h.2.2 (by decide)⟩

/-- Claim C10 counterexample: for the Completed outcome with exit code 0,
stdout `[No output]` and empty stderr, the returned string is the sentinel
text although stdout is not empty — refuting the claimed "only if"
direction at this concrete input. -/
theorem no_output_iff_counterexample :
    formatCompleted 0 "[No output]" "" = "[No output]"
    ∧ ¬(("[No output]" : String) = "" ∧ ("" : String) = "" ∧ (0 : Int) = 0) := by
  constructor
  · decide
  · decide

/-- Claim C10 (amended): the combined annotated text is empty — and hence
replaced by the `[No output]` sentinel — iff stdout is empty, stderr is
empty and the exit code is zero; and a completed command with a non-zero
exit code never yields the sentinel.  (The returned string can still equal
the sentinel text when stdout itself spells it out.) -/
theorem no_output_sentinel_amended (code : Int) (out err : String) :
    (outputText code out err = "" ↔ out = "" ∧ err = "" ∧ code = 0)
    ∧ (outputText code out err = "" → formatCompleted code out err = "[No output]")
    ∧ (code ≠ 0 → formatCompleted code out err ≠ "[No output]") := by
  refine ⟨?_, ?_, ?_⟩
  · rw [outputText_spec]
    constructor
    · intro h
      have hd := congrArg String.data h
      rw [String.data_append, String.data_append,
          show ("" : String).data = [] from rfl] at hd
      rw [List.append_eq_nil, List.append_eq_nil] at hd
      obtain ⟨⟨h1, h2⟩, h3⟩ := hd
      refine ⟨eq_empty_of_data_eq_nil _ h1, ?_, ?_⟩
      · by_cases he : err = ""
        · exact he
        · rw [if_neg he, String.data_append] at h2
          rw [List.append_eq_nil] at h2
          exact absurd h2.1 (by decide)
      · by_cases hc : code = 0
        · exact hc
        · rw [if_neg hc, String.data_append, String.data_append] at h3
          rw [List.append_eq_nil, List.append_eq_nil] at h3
          exact absurd h3.1.1 (by decide)
    · rintro ⟨rfl, rfl, rfl⟩
      simp
  · intro h
    simp [formatCompleted, h]
  · intro hc
    have hform : outputText code out err
        = (if err ≠ "" then out ++ "\n[stderr]:\n" ++ err else out)
          ++ "\n[Exit code: " ++ toString code ++ "]" := by
      simp only [outputText]
      rw [if_pos hc]
    have hl := congrArg String.length hform
    rw [String.length_append, String.length_append, String.length_append,
        show ("\n[Exit code: " : String).length = 13 from rfl,
        show ("]" : String).length = 1 from rfl] at hl
    have hne : outputText code out err ≠ "" := by
      intro h0
      rw [h0, show ("" : String).length = 0 from rfl] at hl
      omega
    have hfc : formatCompleted code out err = outputText code out err := by
      simp [formatCompleted, hne]
    rw [hfc]
    intro hbad
    rw [hbad, show ("[No output]" : String).length = 11 from rfl] at hl
    omega

/-- Claim C10 amended witness: a silent failing command (exit code 7, no
output at all) does not produce the `[No output]` sentinel, while a fully
silent successful command does. -/
theorem no_output_sentinel_amended_witness :
    formatCompleted 7 "" "" ≠ "[No output]"
    ∧ formatCompleted 0 "" "" = "[No output]" := by
  refine ⟨(no_output_sentinel_amended 7 "" "").2.2 (by decide), ?_⟩
  exact (no_output_sentinel_amended 0 "" "").2.1 (by decide)

end SandboxedShell
